import Mathlib

/-!
Verification of `packages/measured-node-metrics/lib/nodeOsMetrics.js`
(node-measured). The module is embedded shallowly: JS numbers become `ℚ`,
JS objects used as string→string maps become association lists, absent
(`undefined`) optional arguments become `Option`, and the registry's
`register` side effects become an explicit list of registration requests
together with a flag recording whether an exception propagated out of the
driver.
-/

namespace NodeOsMetrics

/-- A dimensions object: a mapping of string tags, modelled as an
association list (insertion order preserved, as in a JS object). -/
abbrev Dimensions := List (String × String)

/-- JS numeric defaulting idiom `x || d` as used in the source
(`updateIntervalInSeconds = updateIntervalInSeconds || 30;` etc.):
when the argument is absent (`undefined`) or falsy (the number `0`),
the default is used; any other number, including a negative one, is
truthy and kept. -/
def jsNumOr (x : Option ℚ) (d : ℚ) : ℚ :=
  match x with
  | none => d
  | some v => if v = 0 then d else v

/-- JS defaulting idiom `x || d` for an object-valued argument
(`customDimensions = customDimensions || {};`): every object is truthy,
so only an absent argument is replaced by the default. -/
def jsObjOr (x : Option Dimensions) (d : Dimensions) : Dimensions :=
  match x with
  | none => d
  | some v => v

/-- The OS accessors consumed by the module (`os.loadavg`, `os.freemem`,
`os.totalmem`, `os.uptime`), made explicit as a state record so that the
gauges' value functions can be stated over them. `loadavg` is the
three-element array returned by `os.loadavg()`. -/
structure OSState where
  loadavg : Fin 3 → ℚ
  freemem : ℚ
  totalmem : ℚ
  uptime : ℚ

/-- Summed idle and total tick counts across all cores at one instant,
as produced by `cpuAverage` in `lib/utils/CpuUtils.js`. -/
structure AggregateCpuSample where
  idle : ℚ
  total : ℚ
deriving DecidableEq

/-- Modelled from the spec: `calculateCpuUsagePercent` lives in
`lib/utils/CpuUtils.js`, which is not among the provided sources; §4.1 of
the spec defines it as `idleDelta = end.idleTicks - start.idleTicks`,
`totalDelta = end.totalTicks - start.totalTicks`, result `0` when
`totalDelta <= 0`, else `100 * (1 - idleDelta/totalDelta)` clamped to
`[0, 100]`. -/
def calculateCpuUsagePercent (start fin : AggregateCpuSample) : ℚ :=
  let idleDelta := fin.idle - start.idle
  let totalDelta := fin.total - start.total
  if totalDelta ≤ 0 then 0
  else max 0 (min 100 (100 * (1 - idleDelta / totalDelta)))

/-- The configuration of the `CachedGauge` built by the
`node.os.cpu.all-cores-avg` factory. `timerDelayToSetTimeout` records the
second argument the refresh logic hands to `setTimeout`, whose unit (per
the Node timer contract) is milliseconds. -/
structure CpuCachedGaugeConfig where
  updateIntervalInSeconds : ℚ
  sampleTimeInSeconds : ℚ
  timerDelayToSetTimeout : ℚ
deriving DecidableEq

/-- The `node.os.cpu.all-cores-avg` factory:
`updateIntervalInSeconds = updateIntervalInSeconds || 30;`
`sampleTimeInSeconds = sampleTimeInSeconds || 5;`
then `new CachedGauge(fn, updateIntervalInSeconds)` where `fn` schedules
`setTimeout(cb, sampleTimeInSeconds)`. -/
def cpuAllCoresAvgFactory (updateIntervalInSeconds sampleTimeInSeconds : Option ℚ) :
    CpuCachedGaugeConfig :=
  let u := jsNumOr updateIntervalInSeconds 30
  let s := jsNumOr sampleTimeInSeconds 5
  { updateIntervalInSeconds := u
    sampleTimeInSeconds := s
    timerDelayToSetTimeout := s }

/-- Outcome of one refresh of the CPU `CachedGauge`'s value promise. -/
inductive RefreshResult where
  /-- The promise resolved with the computed usage percentage. -/
  | resolved (v : ℚ)
  /-- The promise was rejected: a synchronous throw inside the `Promise`
  executor is converted to a rejection by the Promise machinery. -/
  | rejected
  /-- The throw happened inside the `setTimeout` callback: nothing catches
  it there, the promise never settles, and the exception reaches Node's
  uncaught-exception handling (which terminates the process by default). -/
  | uncaughtException
deriving DecidableEq

/-- One refresh cycle of the `node.os.cpu.all-cores-avg` value function,
with the two `cpuAverage()` reads made explicit as fallible inputs.
The source runs the first read synchronously inside the `Promise`
executor (a throw there rejects the promise) and the second read inside
the `setTimeout` callback (a throw there is uncaught). -/
def cpuRefreshOutcome (startRead endRead : Except Unit AggregateCpuSample) :
    RefreshResult :=
  match startRead with
  | Except.error _ => RefreshResult.rejected
  | Except.ok s =>
    match endRead with
    | Except.error _ => RefreshResult.uncaughtException
    | Except.ok e => RefreshResult.resolved (calculateCpuUsagePercent s e)

/-- A metric instance as produced by the catalog factories: the simple
gauges carry their value function over the OS accessors; the CPU metric
carries its `CachedGauge` configuration. -/
inductive Metric where
  | gauge (value : OSState → ℚ)
  | cachedGauge (cfg : CpuCachedGaugeConfig)

/-- The catalog `nodeOsMetrics`, in the source's key insertion order
(which is what `Object.keys` yields for these non-integer string keys).
Each factory is a JS function: calling it with no arguments supplies
`undefined` (`none`) for any declared parameters, and the zero-parameter
gauge factories ignore whatever is passed. -/
def nodeOsMetrics : List (String × (Option ℚ → Option ℚ → Metric)) :=
  [ ("node.os.loadavg.1m", fun _ _ => Metric.gauge (fun os => os.loadavg 0))
  , ("node.os.loadavg.5m", fun _ _ => Metric.gauge (fun os => os.loadavg 1))
  , ("node.os.loadavg.15m", fun _ _ => Metric.gauge (fun os => os.loadavg 2))
  , ("node.os.freemem", fun _ _ => Metric.gauge (fun os => os.freemem))
  , ("node.os.totalmem", fun _ _ => Metric.gauge (fun os => os.totalmem))
  , ("node.os.uptime", fun _ _ => Metric.gauge (fun os => os.uptime))
  , ("node.os.cpu.all-cores-avg",
      fun u s => Metric.cachedGauge (cpuAllCoresAvgFactory u s)) ]

/-- One call `metricsRegistry.register(metricName, metric, customDimensions,
reportingIntervalInSeconds)` as issued by `createOSMetrics`. -/
structure RegistrationRequest where
  name : String
  metric : Metric
  dimensions : Dimensions
  intervalSeconds : ℚ

/-- The `Object.keys(nodeOsMetrics).forEach` loop of `createOSMetrics`:
each iteration constructs the metric (factory invoked with no arguments)
and calls `register`; `registerOk` tells whether that call succeeds. A
`register` failure is a thrown exception, which `forEach` does not catch:
iteration stops and the exception propagates. Returns the registrations
performed from this point on, and whether an exception propagated. -/
def runCatalog (registerOk : String → Bool) (dims : Dimensions) (interval : ℚ) :
    List (String × (Option ℚ → Option ℚ → Metric)) →
    List RegistrationRequest × Bool
  | [] => ([], false)
  | (nm, factory) :: rest =>
    let req : RegistrationRequest :=
      { name := nm, metric := factory none none
        dimensions := dims, intervalSeconds := interval }
    if registerOk nm then
      let tail := runCatalog registerOk dims interval rest
      (req :: tail.1, tail.2)
    else ([], true)

/-- `createOSMetrics(metricsRegistry, customDimensions,
reportingIntervalInSeconds)`: applies the `||` defaults (`{}` and the
30-second constant), then iterates the catalog registering each metric.
The registry is abstracted by `registerOk`; the result is the list of
registrations performed, in order, and whether a registry failure
propagated out of the call. -/
def createOSMetrics (registerOk : String → Bool)
    (customDimensions : Option Dimensions)
    (reportingIntervalInSeconds : Option ℚ) :
    List RegistrationRequest × Bool :=
  let dims := jsObjOr customDimensions []
  let interval := jsNumOr reportingIntervalInSeconds 30
  runCatalog registerOk dims interval nodeOsMetrics

/-- Evaluate a metric as a plain gauge at an OS state, when it is one. -/
def gaugeValue (m : Metric) (os : OSState) : Option ℚ :=
  match m with
  | Metric.gauge f => some (f os)
  | Metric.cachedGauge _ => none

/-- The catalog entry at an index, as its name paired with its gauge value
(factory invoked with no arguments) at an OS state. -/
def catalogGaugeAt (i : ℕ) (os : OSState) : Option (String × Option ℚ) :=
  (nodeOsMetrics.get? i).map (fun p => (p.1, gaugeValue (p.2 none none) os))

/-- Extract the `CachedGauge` configuration of a metric, when it is one. -/
def cpuConfig (m : Metric) : Option CpuCachedGaugeConfig :=
  match m with
  | Metric.gauge _ => none
  | Metric.cachedGauge cfg => some cfg

/-- The registrations performed by the `forEach` loop are exactly the
catalog entries up to (not including) the first one whose `register`
call throws, in catalog order. -/
lemma runCatalog_names (ok : String → Bool) (dims : Dimensions) (interval : ℚ) :
    ∀ l, ((runCatalog ok dims interval l).1.map (fun r => r.name))
      = ((l.takeWhile fun p => ok p.1).map Prod.fst) := by
  intro l
  induction l with
  | nil => rfl
  | cons p rest ih =>
    cases hok : ok p.1 <;>
      simp [runCatalog, List.takeWhile_cons, hok, ih]

/-- An exception propagates out of the loop exactly when some catalog
entry's `register` call throws. -/
lemma runCatalog_failed (ok : String → Bool) (dims : Dimensions) (interval : ℚ) :
    ∀ l, (runCatalog ok dims interval l).2 = (l.any fun p => !(ok p.1)) := by
  intro l
  induction l with
  | nil => rfl
  | cons p rest ih =>
    cases hok : ok p.1 <;> simp [runCatalog, hok, ih]

/-- Every registration performed by the loop carries the dimensions and
interval the loop was given. -/
lemma runCatalog_dims_interval (ok : String → Bool) (dims : Dimensions) (interval : ℚ) :
    ∀ l, ∀ r ∈ (runCatalog ok dims interval l).1,
      r.dimensions = dims ∧ r.intervalSeconds = interval := by
  intro l
  induction l with
  | nil => intro r hr; cases hr
  | cons p rest ih =>
    intro r hr
    by_cases hok : ok p.1 = true
    · simp only [runCatalog, hok, if_true, List.mem_cons] at hr
      rcases hr with rfl | hr
      · exact ⟨rfl, rfl⟩
      · exact ih r hr
    · simp only [runCatalog, hok, if_false] at hr
      cases hr

/-- Claim C2: for every pair of aggregate CPU samples whose total-tick
delta is non-positive, `calculateCpuUsagePercent` returns exactly `0` —
a total function, no exception, no NaN, no division by zero. -/
theorem claim2_usage_zero_on_nonpositive_delta (s e : AggregateCpuSample)
    (h : e.total - s.total ≤ 0) : calculateCpuUsagePercent s e = 0 := by
  simp [calculateCpuUsagePercent, h]

/-- Witness for C2 at the spec's own example: two identical samples. -/
theorem claim2_witness :
    ((⟨100, 1000⟩ : AggregateCpuSample).total - (⟨100, 1000⟩ : AggregateCpuSample).total ≤ 0)
      ∧ calculateCpuUsagePercent ⟨100, 1000⟩ ⟨100, 1000⟩ = 0 :=
  ⟨by norm_num,
    claim2_usage_zero_on_nonpositive_delta ⟨100, 1000⟩ ⟨100, 1000⟩ (by norm_num)⟩

/-- Claim C3: for every pair of samples with positive total-tick delta,
`calculateCpuUsagePercent` is `100 * (1 - idleDelta/totalDelta)` clamped
to `[0, 100]`, hence within `[0, 100]`; at
`start = {idle 100, total 1000}`, `end = {idle 150, total 1200}` it is
`75`. -/
theorem claim3_usage_clamped_formula (s e : AggregateCpuSample)
    (h : 0 < e.total - s.total) :
    calculateCpuUsagePercent s e
        = max 0 (min 100 (100 * (1 - (e.idle - s.idle) / (e.total - s.total))))
      ∧ 0 ≤ calculateCpuUsagePercent s e
      ∧ calculateCpuUsagePercent s e ≤ 100
      ∧ calculateCpuUsagePercent ⟨100, 1000⟩ ⟨150, 1200⟩ = 75 := by
  have hne : ¬ e.total - s.total ≤ 0 := not_le.mpr h
  have hform : calculateCpuUsagePercent s e
      = max 0 (min 100 (100 * (1 - (e.idle - s.idle) / (e.total - s.total)))) := by
    simp [calculateCpuUsagePercent, hne]
  refine ⟨hform, ?_, ?_, by norm_num [calculateCpuUsagePercent]⟩
  · rw [hform]; exact le_max_left _ _
  · rw [hform]
    exact max_le (by norm_num) (min_le_left _ _)

/-- Witness for C3 at the spec's worked example. -/
theorem claim3_witness :
    (0 < (⟨150, 1200⟩ : AggregateCpuSample).total - (⟨100, 1000⟩ : AggregateCpuSample).total)
      ∧ calculateCpuUsagePercent ⟨100, 1000⟩ ⟨150, 1200⟩ = 75 :=
  ⟨by norm_num,
    (claim3_usage_clamped_formula ⟨100, 1000⟩ ⟨150, 1200⟩ (by norm_num)).2.2.2⟩

/-- Counterexample to C4 as stated: a negative `updateIntervalInSeconds`
is a truthy JS number, so `updateIntervalInSeconds || 30` keeps it — the
factory uses `-5`, not the default `30`. -/
theorem claim4_counterexample :
    (cpuAllCoresAvgFactory (some (-5)) (some 10)).updateIntervalInSeconds = -5
      ∧ (cpuAllCoresAvgFactory (some (-5)) (some 10)).updateIntervalInSeconds ≠ 30 := by
  constructor <;> norm_num [cpuAllCoresAvgFactory, jsNumOr]

/-- Claim C4 (amended): an absent or zero argument is replaced by its
default (`30` for the update interval, `5` for the sample time) and the
call never fails; any other supplied value — negative values included —
is used as-is, so `(60, 10)` yields `(60, 10)`. -/
theorem claim4_amended_falsy_defaults (u s : Option ℚ) :
    ((u = none ∨ u = some 0) → (cpuAllCoresAvgFactory u s).updateIntervalInSeconds = 30)
      ∧ ((s = none ∨ s = some 0) → (cpuAllCoresAvgFactory u s).sampleTimeInSeconds = 5)
      ∧ (∀ v, u = some v → v ≠ 0 → (cpuAllCoresAvgFactory u s).updateIntervalInSeconds = v)
      ∧ (∀ v, s = some v → v ≠ 0 → (cpuAllCoresAvgFactory u s).sampleTimeInSeconds = v)
      ∧ (cpuAllCoresAvgFactory (some 60) (some 10)).updateIntervalInSeconds = 60
      ∧ (cpuAllCoresAvgFactory (some 60) (some 10)).sampleTimeInSeconds = 10 := by
  refine ⟨?_, ?_, ?_, ?_, by norm_num [cpuAllCoresAvgFactory, jsNumOr],
    by norm_num [cpuAllCoresAvgFactory, jsNumOr]⟩
  · rintro (rfl | rfl) <;> simp [cpuAllCoresAvgFactory, jsNumOr]
  · rintro (rfl | rfl) <;> simp [cpuAllCoresAvgFactory, jsNumOr]
  · rintro v rfl hv; simp [cpuAllCoresAvgFactory, jsNumOr, hv]
  · rintro v rfl hv; simp [cpuAllCoresAvgFactory, jsNumOr, hv]

/-- Witness for the amended C4: zero and absent arguments fall back to
the defaults. -/
theorem claim4_amended_witness :
    (cpuAllCoresAvgFactory (some 0) none).updateIntervalInSeconds = 30
      ∧ (cpuAllCoresAvgFactory (some 0) none).sampleTimeInSeconds = 5 :=
  ⟨(claim4_amended_falsy_defaults (some 0) none).1 (Or.inr rfl),
    (claim4_amended_falsy_defaults (some 0) none).2.1 (Or.inl rfl)⟩

/-- Claim C5, evaluated on the code: the refresh logic hands the raw
`sampleTimeInSeconds` number (default `5`) to `setTimeout`, whose delay
unit is milliseconds — so the wait between the two samples is 5
milliseconds, not the `5 * 1000` milliseconds that 5 seconds would
require. -/
theorem claim5_delay_unit_mismatch :
    (cpuAllCoresAvgFactory none none).sampleTimeInSeconds = 5
      ∧ (cpuAllCoresAvgFactory none none).timerDelayToSetTimeout
          = (cpuAllCoresAvgFactory none none).sampleTimeInSeconds
      ∧ (cpuAllCoresAvgFactory none none).timerDelayToSetTimeout ≠ 5 * 1000 := by
  refine ⟨rfl, rfl, ?_⟩
  norm_num [cpuAllCoresAvgFactory, jsNumOr]

/-- Claim C9, evaluated on the code: a failed start-sample read rejects
the refresh promise (the throw happens inside the `Promise` executor),
but a failed end-sample read throws inside the `setTimeout` callback,
where nothing catches it: the promise never settles and the exception is
uncaught rather than a failed refresh result. -/
theorem claim9_end_sample_failure_uncaught :
    cpuRefreshOutcome (Except.ok ⟨100, 1000⟩) (Except.error ())
        = RefreshResult.uncaughtException
      ∧ cpuRefreshOutcome (Except.error ()) (Except.ok ⟨150, 1200⟩)
          = RefreshResult.rejected
      ∧ RefreshResult.uncaughtException ≠ RefreshResult.rejected :=
  ⟨rfl, rfl, by decide⟩

/-- Claim C1: on a registry that accepts every registration,
`createOSMetrics` performs exactly 7 registrations, all with the same
dimensions and interval: the empty mapping and 30 when the arguments are
absent, 30 also when the interval argument is falsy (`0`), and
`{env: "prod"}` with 10 when those are supplied. -/
theorem claim1_driver_shared_defaults (ok : String → Bool) (h : ∀ nm, ok nm = true) :
    ((createOSMetrics ok none none).1.map (fun r => (r.dimensions, r.intervalSeconds))
        = List.replicate 7 (([] : Dimensions), (30 : ℚ)))
      ∧ ((createOSMetrics ok (some [("env", "prod")]) (some 10)).1.map
            (fun r => (r.dimensions, r.intervalSeconds))
          = List.replicate 7 (([("env", "prod")] : Dimensions), (10 : ℚ)))
      ∧ ((createOSMetrics ok none (some 0)).1.map (fun r => r.intervalSeconds)
          = List.replicate 7 (30 : ℚ)) := by
  refine ⟨?_, ?_, ?_⟩ <;>
    norm_num [createOSMetrics, runCatalog, jsObjOr, jsNumOr, h, List.replicate]

/-- Witness for C1 on the always-accepting registry. -/
theorem claim1_witness :
    ((createOSMetrics (fun _ => true) none none).1.map
        (fun r => (r.dimensions, r.intervalSeconds)))
      = List.replicate 7 (([] : Dimensions), (30 : ℚ)) :=
  (claim1_driver_shared_defaults (fun _ => true) (fun _ => rfl)).1

/-- Claim C6: whatever arguments `createOSMetrics` itself receives, every
catalog factory is invoked with no arguments, so the registered
`node.os.cpu.all-cores-avg` metric always carries the internal defaults
(update interval 30, sample time 5) and the other six entries are plain
gauges; the driver plumbs no per-metric sampling configuration. -/
theorem claim6_driver_invokes_factories_bare :
    ∀ (d : Option Dimensions) (i : Option ℚ),
      ((createOSMetrics (fun _ => true) d i).1.map (fun r => (r.name, cpuConfig r.metric)))
        = [("node.os.loadavg.1m", none), ("node.os.loadavg.5m", none),
           ("node.os.loadavg.15m", none), ("node.os.freemem", none),
           ("node.os.totalmem", none), ("node.os.uptime", none),
           ("node.os.cpu.all-cores-avg",
             some { updateIntervalInSeconds := 30, sampleTimeInSeconds := 5,
                    timerDelayToSetTimeout := 5 })] := by
  intro d i
  rfl

/-- Claim C7: each non-CPU catalog entry is a gauge whose value function
returns exactly the current value of the corresponding OS accessor —
load-average elements 0, 1, 2, free and total memory, and uptime — with
no transformation or caching. -/
theorem claim7_gauges_read_os_directly :
    ∀ os : OSState,
      catalogGaugeAt 0 os = some ("node.os.loadavg.1m", some (os.loadavg 0))
        ∧ catalogGaugeAt 1 os = some ("node.os.loadavg.5m", some (os.loadavg 1))
        ∧ catalogGaugeAt 2 os = some ("node.os.loadavg.15m", some (os.loadavg 2))
        ∧ catalogGaugeAt 3 os = some ("node.os.freemem", some os.freemem)
        ∧ catalogGaugeAt 4 os = some ("node.os.totalmem", some os.totalmem)
        ∧ catalogGaugeAt 5 os = some ("node.os.uptime", some os.uptime) := by
  intro os
  exact ⟨rfl, rfl, rfl, rfl, rfl, rfl⟩

/-- Claim C8: when some catalog entry's `register` call throws, the
exception propagates out of `createOSMetrics` (not suppressed), and the
registrations performed are exactly those strictly before the first
failing entry — none after it. -/
theorem claim8_register_failure_propagates (ok : String → Bool)
    (d : Option Dimensions) (i : Option ℚ)
    (h : (nodeOsMetrics.any fun p => !(ok p.1)) = true) :
    (createOSMetrics ok d i).2 = true
      ∧ ((createOSMetrics ok d i).1.map (fun r => r.name))
          = ((nodeOsMetrics.takeWhile fun p => ok p.1).map Prod.fst) :=
  ⟨(runCatalog_failed ok (jsObjOr d []) (jsNumOr i 30) nodeOsMetrics).trans h,
    runCatalog_names ok (jsObjOr d []) (jsNumOr i 30) nodeOsMetrics⟩

/-- Witness for C8: a registry that rejects `node.os.freemem`. -/
theorem claim8_witness :
    (createOSMetrics (fun nm => nm != "node.os.freemem") none none).2 = true :=
  (claim8_register_failure_propagates
    (fun nm => nm != "node.os.freemem") none none (by decide)).1

/-- Claim C10: with an always-accepting registry the 7 registrations
happen in the fixed catalog key order, `node.os.loadavg.1m` first and
`node.os.cpu.all-cores-avg` last; and for every registry the performed
registrations are exactly the catalog prefix before the first failing
entry, so a failure at the k-th entry leaves the k-1 earlier
registrations in place — no rollback, not atomic. -/
theorem claim10_order_and_no_rollback :
    (∀ (d : Option Dimensions) (i : Option ℚ),
      ((createOSMetrics (fun _ => true) d i).1.map (fun r => r.name))
        = ["node.os.loadavg.1m", "node.os.loadavg.5m", "node.os.loadavg.15m",
           "node.os.freemem", "node.os.totalmem", "node.os.uptime",
           "node.os.cpu.all-cores-avg"])
      ∧ (∀ (ok : String → Bool) (d : Option Dimensions) (i : Option ℚ),
          ((createOSMetrics ok d i).1.map (fun r => r.name))
            = ((nodeOsMetrics.takeWhile fun p => ok p.1).map Prod.fst)) := by
  constructor
  · intro d i; rfl
  · intro ok d i
    exact runCatalog_names ok (jsObjOr d []) (jsNumOr i 30) nodeOsMetrics

end NodeOsMetrics
